import Mathlib

/-!
Verification of the gcovr coverage tool (`gcovr/__main__.py`) against its
natural-language specification.

The embedding below translates the relevant program parts into Lean:
* `fail_under` — the threshold policy (`__main__.py`, lines 54–67).
  `sys.exit(n)` is modelled as the result `some n`; returning normally is
  `none`.  Percentages and thresholds are modelled as exact rationals.
* `check_percentage` — the option-value validator (lines 71–78), over an
  abstract model of Python `float(value)` results.
* the tail of `main` (lines 428–440) — modelled as the ordered trace of
  side-effecting calls it performs.
* the Coverage Merger and Aggregate Statistics Engine, whose code is not
  part of this tree, are modelled from the specification (§4.3, §4.4).
-/

/-- The tuple returned by `get_global_stats(covdata)`:
`(lines_total, lines_covered, percent, branches_total, branches_covered,
percent_branches)`. -/
structure GlobalStats where
  lines_total : ℕ
  lines_covered : ℕ
  percent : ℚ
  branches_total : ℕ
  branches_covered : ℕ
  percent_branches : ℚ
deriving DecidableEq

/-- Lines 59–60 of `__main__.py`: `if branches_total == 0:
percent_branches = 100.0`.  The branch percentage actually compared by the
policy. -/
def branchPercentUsed (s : GlobalStats) : ℚ :=
  if s.branches_total = 0 then 100 else s.percent_branches

/-- `fail_under(covdata, threshold_line, threshold_branch)`
(`__main__.py`, lines 54–67).  `some n` models `sys.exit(n)`; `none`
models a normal return. -/
def fail_under (s : GlobalStats) (threshold_line threshold_branch : ℚ) :
    Option ℕ :=
  if s.percent < threshold_line ∧ branchPercentUsed s < threshold_branch then
    some 6
  else if s.percent < threshold_line then
    some 2
  else if branchPercentUsed s < threshold_branch then
    some 4
  else
    none

/-- C1: `fail_under` exits with 2 exactly when only the line percentage is
below the line threshold, with 4 exactly when only the branch percentage is
below the branch threshold, with 6 = 2 ||| 4 exactly when both are, and
returns normally exactly when neither is; the result is always one of these
four outcomes.  The hypothesis is the consistency property of
global-statistics tuples (spec §4.4): with zero branches the branch
percentage is 100. -/
theorem fail_under_four_way_classification (s : GlobalStats) (tl tb : ℚ)
    (hcons : s.branches_total = 0 → s.percent_branches = 100) :
    (fail_under s tl tb = some 2 ↔ s.percent < tl ∧ ¬ s.percent_branches < tb) ∧
    (fail_under s tl tb = some 4 ↔ ¬ s.percent < tl ∧ s.percent_branches < tb) ∧
    (fail_under s tl tb = some 6 ↔ s.percent < tl ∧ s.percent_branches < tb) ∧
    (fail_under s tl tb = none ↔ ¬ s.percent < tl ∧ ¬ s.percent_branches < tb) ∧
    (6 : ℕ) = 2 ||| 4 ∧
    (fail_under s tl tb = none ∨ fail_under s tl tb = some 2 ∨
      fail_under s tl tb = some 4 ∨ fail_under s tl tb = some 6) := by
  have hpb : branchPercentUsed s = s.percent_branches := by
    by_cases h : s.branches_total = 0
    · simp [branchPercentUsed, h, hcons h]
    · simp [branchPercentUsed, h]
  by_cases h1 : s.percent < tl <;> by_cases h2 : s.percent_branches < tb <;>
    simp [fail_under, hpb, h1, h2]

/-- Witness for C1 at the concrete tuple
`(10, 7, 70, 4, 2, 50)` with thresholds `80` and `60`: both percentages are
below their thresholds, so the exit status is 6. -/
theorem fail_under_four_way_classification_witness :
    ((GlobalStats.mk 10 7 70 4 2 50).branches_total = 0 →
      (GlobalStats.mk 10 7 70 4 2 50).percent_branches = 100) ∧
    (fail_under (GlobalStats.mk 10 7 70 4 2 50) 80 60 = some 6 ↔
      (GlobalStats.mk 10 7 70 4 2 50).percent < 80 ∧
      (GlobalStats.mk 10 7 70 4 2 50).percent_branches < 60) :=
  ⟨by decide,
    (fail_under_four_way_classification (GlobalStats.mk 10 7 70 4 2 50)
      80 60 (by decide)).2.2.1⟩

/-- C2: with `branches_total = 0` and a branch threshold in `[0, 100]`,
`fail_under` never exits with 4 or 6; the outcome is decided by the line
comparison alone. -/
theorem fail_under_zero_branches (s : GlobalStats) (tl tb : ℚ)
    (hbt : s.branches_total = 0) (h0 : 0 ≤ tb) (h100 : tb ≤ 100) :
    fail_under s tl tb ≠ some 4 ∧ fail_under s tl tb ≠ some 6 ∧
    fail_under s tl tb = (if s.percent < tl then some 2 else none) := by
  have hpb : branchPercentUsed s = 100 := by simp [branchPercentUsed, hbt]
  have hnb : ¬ branchPercentUsed s < tb := by
    rw [hpb]; exact not_lt.mpr h100
  by_cases h1 : s.percent < tl <;> simp [fail_under, h1, hnb]

/-- Witness for C2 at the tuple `(10, 7, 70, 0, 0, 100)` with thresholds
`80` and `50`: no branch exists, so the status is 2 from the line check. -/
theorem fail_under_zero_branches_witness :
    (GlobalStats.mk 10 7 70 0 0 100).branches_total = 0 ∧
    (0 : ℚ) ≤ 50 ∧ (50 : ℚ) ≤ 100 ∧
    fail_under (GlobalStats.mk 10 7 70 0 0 100) 80 50 =
      (if (GlobalStats.mk 10 7 70 0 0 100).percent < 80 then some 2
        else none) :=
  ⟨by decide, by decide, by decide,
    (fail_under_zero_branches (GlobalStats.mk 10 7 70 0 0 100) 80 50
      (by decide) (by decide) (by decide)).2.2⟩

/-- C3: meeting the line threshold exactly (and meeting the branch
threshold) is not a violation: both comparisons are strict, so `fail_under`
returns normally. -/
theorem fail_under_exact_threshold_passes (s : GlobalStats) (tl tb : ℚ)
    (hline : s.percent = tl) (hbr : tb ≤ branchPercentUsed s) :
    fail_under s tl tb = none := by
  have h1 : ¬ s.percent < tl := by rw [hline]; exact lt_irrefl tl
  have h2 : ¬ branchPercentUsed s < tb := not_lt.mpr hbr
  simp [fail_under, h1, h2]

/-- Witness for C3 at the tuple `(10, 8, 80, 2, 2, 100)` with line
threshold exactly `80` and branch threshold `90`. -/
theorem fail_under_exact_threshold_passes_witness :
    (GlobalStats.mk 10 8 80 2 2 100).percent = 80 ∧
    (90 : ℚ) ≤ branchPercentUsed (GlobalStats.mk 10 8 80 2 2 100) ∧
    fail_under (GlobalStats.mk 10 8 80 2 2 100) 80 90 = none :=
  ⟨by decide, by decide,
    fail_under_exact_threshold_passes (GlobalStats.mk 10 8 80 2 2 100)
      80 90 (by decide) (by decide)⟩

/-- Modelled from the spec: the per-file / global line-percentage formula
of the Aggregate Statistics Engine (§4.4), whose code (`utils.py`) is not
in this tree: `lines_covered / lines_total * 100`, defined as `100.0` when
`lines_total == 0`. -/
def linePercentOfCounts (total covered : ℕ) : ℚ :=
  if total = 0 then 100 else (covered : ℚ) / (total : ℚ) * 100

/-- C4: with `lines_total = 10`, `lines_covered = 7` (line percentage 70),
line threshold 80 and branch threshold 0 (disabled), the run is classified
as line-violation only: exit status 2, regardless of the branch data. -/
theorem fail_under_example_line_violation (bt bc : ℕ) (pb : ℚ)
    (hpb : 0 ≤ pb) :
    fail_under (GlobalStats.mk 10 7 (linePercentOfCounts 10 7) bt bc pb)
      80 0 = some 2 := by
  have hp : linePercentOfCounts 10 7 = 70 := by
    norm_num [linePercentOfCounts]
  have h1 : linePercentOfCounts 10 7 < 80 := by rw [hp]; norm_num
  have h2 : ¬ branchPercentUsed
      (GlobalStats.mk 10 7 (linePercentOfCounts 10 7) bt bc pb) < 0 := by
    unfold branchPercentUsed
    by_cases h : bt = 0 <;> simp [h]
    · exact hpb
  simp [fail_under, h1, h2]

/-- Witness for C4 with concrete branch data `(0, 0, 100)`. -/
theorem fail_under_example_line_violation_witness :
    (0 : ℚ) ≤ 100 ∧
    fail_under (GlobalStats.mk 10 7 (linePercentOfCounts 10 7) 0 0 100)
      80 0 = some 2 :=
  ⟨by decide, fail_under_example_line_violation 0 0 100 (by decide)⟩

/-- C5: same statistics (line percentage 70) but line threshold 60 and
branch threshold 0: no violation, `fail_under` returns normally. -/
theorem fail_under_example_no_violation (bt bc : ℕ) (pb : ℚ)
    (hpb : 0 ≤ pb) :
    fail_under (GlobalStats.mk 10 7 (linePercentOfCounts 10 7) bt bc pb)
      60 0 = none := by
  have hp : linePercentOfCounts 10 7 = 70 := by
    norm_num [linePercentOfCounts]
  have h1 : ¬ linePercentOfCounts 10 7 < 60 := by rw [hp]; norm_num
  have h2 : ¬ branchPercentUsed
      (GlobalStats.mk 10 7 (linePercentOfCounts 10 7) bt bc pb) < 0 := by
    unfold branchPercentUsed
    by_cases h : bt = 0 <;> simp [h]
    · exact hpb
  simp [fail_under, h1, h2]

/-- Witness for C5 with concrete branch data `(0, 0, 100)`. -/
theorem fail_under_example_no_violation_witness :
    (0 : ℚ) ≤ 100 ∧
    fail_under (GlobalStats.mk 10 7 (linePercentOfCounts 10 7) 0 0 100)
      60 0 = none :=
  ⟨by decide, fail_under_example_no_violation 0 0 100 (by decide)⟩

/-- Modelled from the spec: one conditional-branch outcome at a line
(§3 `BranchCoverage`).  The index is the position in the parent line's
branch list ("position among the branches declared for that line"), so it
is represented positionally rather than stored. -/
structure BranchCoverage where
  taken : ℕ
  excluded : Bool
deriving DecidableEq

/-- Modelled from the spec: one source line's observed execution state
(§3 `LineCoverage`).  `count = none` is the "not-executable" marker,
distinct from `some 0`. -/
structure LineCoverage where
  count : Option ℕ
  excluded : Bool
  branches : List BranchCoverage
deriving DecidableEq

/-- Modelled from the spec: accumulated knowledge about one source file
(§3 `FileCoverage`): a canonical path and a mapping from line number to
`LineCoverage` (absent = not instrumented). -/
structure FileCoverage where
  path : String
  lines : ℕ → Option LineCoverage

/-- Modelled from the spec (§4.3): merged count — sum of both sides with
absent/not-executable treated as 0, except that two not-executable sides
stay not-executable. -/
def mergeCount : Option ℕ → Option ℕ → Option ℕ
  | none, none => none
  | some a, none => some a
  | none, some b => some b
  | some a, some b => some (a + b)

/-- Modelled from the spec (§4.3): positional branch merge — `taken` sums,
`excluded` is OR'd. -/
def mergeBranch (b1 b2 : BranchCoverage) : BranchCoverage :=
  ⟨b1.taken + b2.taken, b1.excluded || b2.excluded⟩

/-- Modelled from the spec (§4.3): branches are merged positionally; an
index present on only one side is carried through unchanged. -/
def mergeBranches : List BranchCoverage → List BranchCoverage →
    List BranchCoverage
  | [], ys => ys
  | xs, [] => xs
  | x :: xs, y :: ys => mergeBranch x y :: mergeBranches xs ys

/-- Modelled from the spec (§4.3): line merge — counts sum, exclusion ORs,
branches merge positionally. -/
def mergeLine (l1 l2 : LineCoverage) : LineCoverage :=
  ⟨mergeCount l1.count l2.count, l1.excluded || l2.excluded,
    mergeBranches l1.branches l2.branches⟩

/-- Modelled from the spec (§4.3): a line number present in only one
fragment is carried through unchanged. -/
def mergeLineOpt : Option LineCoverage → Option LineCoverage →
    Option LineCoverage
  | none, none => none
  | some l, none => some l
  | none, some l => some l
  | some l1, some l2 => some (mergeLine l1 l2)

/-- Modelled from the spec (§4.3): fold one fragment into the record held
for the same canonical path, line by line. -/
def mergeFile (f1 f2 : FileCoverage) : FileCoverage :=
  ⟨f1.path, fun n => mergeLineOpt (f1.lines n) (f2.lines n)⟩

theorem mergeCount_comm (a b : Option ℕ) :
    mergeCount a b = mergeCount b a := by
  cases a <;> cases b <;> simp [mergeCount, Nat.add_comm]

theorem mergeBranch_comm (b1 b2 : BranchCoverage) :
    mergeBranch b1 b2 = mergeBranch b2 b1 := by
  simp [mergeBranch, Nat.add_comm, Bool.or_comm]

theorem mergeBranches_comm (xs ys : List BranchCoverage) :
    mergeBranches xs ys = mergeBranches ys xs := by
  induction xs generalizing ys with
  | nil => cases ys <;> rfl
  | cons x xs ih =>
    cases ys with
    | nil => rfl
    | cons y ys => simp [mergeBranches, mergeBranch_comm, ih]

theorem mergeLine_comm (l1 l2 : LineCoverage) :
    mergeLine l1 l2 = mergeLine l2 l1 := by
  simp [mergeLine, mergeCount_comm, Bool.or_comm, mergeBranches_comm]

theorem mergeLineOpt_comm (a b : Option LineCoverage) :
    mergeLineOpt a b = mergeLineOpt b a := by
  cases a <;> cases b <;> simp [mergeLineOpt, mergeLine_comm]

/-- C6: merging two fragments for the same canonical path is commutative:
`merge(R1, R2) = merge(R2, R1)`. -/
theorem mergeFile_comm (f1 f2 : FileCoverage) (hpath : f1.path = f2.path) :
    mergeFile f1 f2 = mergeFile f2 f1 := by
  cases f1 with
  | mk p1 ls1 =>
    cases f2 with
    | mk p2 ls2 =>
      simp only [mergeFile]
      simp only at hpath
      subst hpath
      congr 1
      funext n
      exact mergeLineOpt_comm (ls1 n) (ls2 n)

/-- Witness for C6: two concrete fragments for path `"a.c"`, one with a
hit count 5 and an excluded line, one with counts 3 and 10, merge the same
way in either order. -/
theorem mergeFile_comm_witness :
    (FileCoverage.mk "a.c" (fun n =>
        if n = 1 then some ⟨some 5, false, [⟨1, false⟩]⟩
        else if n = 2 then some ⟨some 0, true, []⟩
        else none)).path =
      (FileCoverage.mk "a.c" (fun n =>
        if n = 1 then some ⟨some 3, false, [⟨0, true⟩, ⟨2, false⟩]⟩
        else if n = 2 then some ⟨some 10, false, []⟩
        else none)).path ∧
    mergeFile
      (FileCoverage.mk "a.c" (fun n =>
        if n = 1 then some ⟨some 5, false, [⟨1, false⟩]⟩
        else if n = 2 then some ⟨some 0, true, []⟩
        else none))
      (FileCoverage.mk "a.c" (fun n =>
        if n = 1 then some ⟨some 3, false, [⟨0, true⟩, ⟨2, false⟩]⟩
        else if n = 2 then some ⟨some 10, false, []⟩
        else none)) =
    mergeFile
      (FileCoverage.mk "a.c" (fun n =>
        if n = 1 then some ⟨some 3, false, [⟨0, true⟩, ⟨2, false⟩]⟩
        else if n = 2 then some ⟨some 10, false, []⟩
        else none))
      (FileCoverage.mk "a.c" (fun n =>
        if n = 1 then some ⟨some 5, false, [⟨1, false⟩]⟩
        else if n = 2 then some ⟨some 0, true, []⟩
        else none)) :=
  ⟨rfl, mergeFile_comm _ _ rfl⟩

/-- Modelled from the spec (§4.4): a line enters the totals iff it is
instrumented (has a count, i.e. not the not-executable marker) and not
excluded. -/
def isCountedLine (l : LineCoverage) : Bool :=
  !l.excluded && l.count.isSome

/-- Modelled from the spec (§4.4): a counted line is covered iff its count
is positive. -/
def isCoveredLine (l : LineCoverage) : Bool :=
  isCountedLine l && l.count.getD 0 != 0

/-- Modelled from the spec (§4.4): `lines_total` = number of non-excluded,
instrumented lines of a file. -/
def fileLinesTotal (ls : List LineCoverage) : ℕ :=
  (ls.filter isCountedLine).length

/-- Modelled from the spec (§4.4): `lines_covered` = number of
non-excluded lines with positive count. -/
def fileLinesCovered (ls : List LineCoverage) : ℕ :=
  (ls.filter isCoveredLine).length

/-- Modelled from the spec (§4.4): a file's `line_percent`. -/
def fileLinePercent (ls : List LineCoverage) : ℚ :=
  linePercentOfCounts (fileLinesTotal ls) (fileLinesCovered ls)

/-- C7: a file with no non-excluded instrumented lines has
`line_percent = 100`, rather than an undefined quotient. -/
theorem fileLinePercent_of_no_lines (ls : List LineCoverage)
    (h : fileLinesTotal ls = 0) : fileLinePercent ls = 100 := by
  simp [fileLinePercent, linePercentOfCounts, h]

/-- Witness for C7: a file whose only records are an excluded line and a
not-executable line has `lines_total = 0` and percentage 100. -/
theorem fileLinePercent_of_no_lines_witness :
    fileLinesTotal [⟨some 5, true, []⟩, ⟨none, false, []⟩] = 0 ∧
    fileLinePercent [⟨some 5, true, []⟩, ⟨none, false, []⟩] = 100 :=
  ⟨by decide, fileLinePercent_of_no_lines _ (by decide)⟩

/-- The result of Python `float(value)` on an option argument string:
`nan`, the two infinities, or a finite value (modelled exactly as a
rational).  A string that does not parse is modelled as `none` at the call
site. -/
inductive PyFloat where
  | nan
  | inf
  | ninf
  | num (q : ℚ)
deriving DecidableEq

/-- Python `<=` on floats: any comparison involving `nan` is false. -/
def pyLe : PyFloat → PyFloat → Bool
  | .nan, _ => false
  | _, .nan => false
  | .ninf, _ => true
  | _, .ninf => false
  | _, .inf => true
  | .inf, _ => false
  | .num a, .num b => decide (a ≤ b)

/-- `check_percentage(option, opt, value)` (`__main__.py`, lines 71–78).
The argument models the outcome of `float(value)`: `none` when parsing
raises `ValueError`.  The result `none` models raising
`OptionValueError`; `some x` models returning `x`. -/
def check_percentage (parsed : Option PyFloat) : Option PyFloat :=
  match parsed with
  | none => none
  | some x =>
      if pyLe (.num 0) x && pyLe x (.num 100) then some x else none

/-- C8: `check_percentage` returns the parsed float exactly when it is a
finite value in `[0, 100]`; every other input — parse failure, `nan`,
infinities, out-of-range values — is rejected.  Hence every accepted
`--fail-under-line` / `--fail-under-branch` threshold lies in `[0, 100]`. -/
theorem check_percentage_accepts_iff (v : Option PyFloat) (x : PyFloat) :
    check_percentage v = some x ↔
      v = some x ∧ ∃ q : ℚ, x = PyFloat.num q ∧ 0 ≤ q ∧ q ≤ 100 := by
  cases v with
  | none => simp [check_percentage]
  | some y =>
    cases y with
    | nan =>
      constructor
      · intro h; simp [check_percentage, pyLe] at h
      · rintro ⟨h, q, hq, -, -⟩
        rw [Option.some_inj] at h
        subst h
        simp at hq
    | inf =>
      constructor
      · intro h; simp [check_percentage, pyLe] at h
      · rintro ⟨h, q, hq, -, -⟩
        rw [Option.some_inj] at h
        subst h
        simp at hq
    | ninf =>
      constructor
      · intro h; simp [check_percentage, pyLe] at h
      · rintro ⟨h, q, hq, -, -⟩
        rw [Option.some_inj] at h
        subst h
        simp at hq
    | num q =>
      constructor
      · intro h
        by_cases h0 : (0 : ℚ) ≤ q
        · by_cases h1 : q ≤ 100
          · have hx : some (PyFloat.num q) = some x := by
              simpa [check_percentage, pyLe, h0, h1] using h
            rw [Option.some_inj] at hx
            exact ⟨by rw [hx], q, hx.symm, h0, h1⟩
          · simp [check_percentage, pyLe, h0, h1] at h
        · simp [check_percentage, pyLe, h0] at h
      · rintro ⟨h, p, hp, hp0, hp1⟩
        rw [Option.some_inj] at h
        subst h
        have hqp : q = p := by injection hp
        subst hqp
        simp [check_percentage, pyLe, hp0, hp1]

/-- The option fields of `parse_arguments` that drive the report phase of
`main` (`__main__.py`, lines 104–214 and 428–440). -/
structure Options where
  xml : Bool
  prettyxml : Bool
  html : Bool
  html_details : Bool
  print_summary : Bool
  fail_under_line : ℚ
  fail_under_branch : ℚ
deriving DecidableEq

/-- The `--fail-under-line` default (`__main__.py`, line 120). -/
def default_fail_under_line : ℚ := 0

/-- The `--fail-under-branch` default (`__main__.py`, line 131). -/
def default_fail_under_branch : ℚ := 0

/-- The guard on line 439 of `__main__.py`:
`options.fail_under_line > 0.0 or options.fail_under_branch > 0.0`. -/
def thresholdGuard (tl tb : ℚ) : Bool :=
  decide (0 < tl) || decide (0 < tb)

/-- Lines 439–440 of `__main__.py`: `fail_under` is called only when the
guard holds.  `some n` models an exit with status `n`. -/
def mainThresholdStep (tl tb : ℚ) (s : GlobalStats) : Option ℕ :=
  if thresholdGuard tl tb then fail_under s tl tb else none

/-- C9: with both thresholds at their defaults (0.0), the guard on line
439 is false, so `fail_under` is never invoked and no threshold-failure
exit (2, 4 or 6) can occur. -/
theorem mainThresholdStep_defaults_never_exits (s : GlobalStats) :
    mainThresholdStep default_fail_under_line default_fail_under_branch s =
      none := by
  simp [mainThresholdStep, thresholdGuard, default_fail_under_line,
    default_fail_under_branch]

/-- One observable call performed by the report phase of `main`. -/
inductive MainEvent where
  | reportXml
  | reportHtml
  | reportText
  | summary
  | exitThreshold (code : ℕ)
deriving DecidableEq

/-- Lines 429–434 of `__main__.py`: which report generator runs. -/
def reportEvent (o : Options) : MainEvent :=
  if o.xml || o.prettyxml then MainEvent.reportXml
  else if o.html || o.html_details then MainEvent.reportHtml
  else MainEvent.reportText

/-- The ordered trace of calls performed by lines 428–440 of `main`:
exactly one report generator, then the optional summary, then — only under
the threshold guard — `fail_under`, whose exit (if any) is the final
event. -/
def mainTrace (o : Options) (s : GlobalStats) : List MainEvent :=
  [reportEvent o]
    ++ (if o.print_summary then [MainEvent.summary] else [])
    ++ (if thresholdGuard o.fail_under_line o.fail_under_branch then
          match fail_under s o.fail_under_line o.fail_under_branch with
          | some c => [MainEvent.exitThreshold c]
          | none => []
        else [])

/-- C10: in every run, the report generator is the first event of the
trace, and a threshold-failure exit — when one occurs — is the last event,
strictly after the report and the optional summary; so a threshold
violation never suppresses report output. -/
theorem mainTrace_reports_before_exit (o : Options) (s : GlobalStats) :
    (∃ rest, mainTrace o s = reportEvent o :: rest) ∧
    (∀ c, MainEvent.exitThreshold c ∈ mainTrace o s →
      (∃ pre, mainTrace o s = pre ++ [MainEvent.exitThreshold c]) ∧
      reportEvent o ≠ MainEvent.exitThreshold c) := by
  have hrep : ∀ c', reportEvent o ≠ MainEvent.exitThreshold c' := by
    intro c'
    unfold reportEvent
    by_cases h1 : (o.xml || o.prettyxml) = true <;>
      by_cases h2 : (o.html || o.html_details) = true <;> simp [h1, h2]
  constructor
  · exact ⟨_, rfl⟩
  · intro c hc
    refine ⟨?_, hrep c⟩
    unfold mainTrace at hc ⊢
    rcases hfu : fail_under s o.fail_under_line o.fail_under_branch
      with _ | c'
    · rw [hfu] at hc
      by_cases hs : o.print_summary <;>
        by_cases hg :
          thresholdGuard o.fail_under_line o.fail_under_branch = true <;>
        simp [hs, hg, (hrep c).symm] at hc
    · rw [hfu] at hc
      by_cases hg :
        thresholdGuard o.fail_under_line o.fail_under_branch = true
      · have hcc : c = c' := by
          by_cases hs : o.print_summary <;>
            simp [hs, hg, (hrep c).symm] at hc <;> exact hc
        subst hcc
        by_cases hs : o.print_summary
        · refine ⟨[reportEvent o, MainEvent.summary], ?_⟩
          simp [hs, hg]
        · refine ⟨[reportEvent o], ?_⟩
          simp [hs, hg]
      · by_cases hs : o.print_summary <;>
          simp [hs, hg, (hrep c).symm] at hc

/-- Witness for C10: with the text report, summary enabled, a line
threshold of 50 and statistics at 10 percent line coverage, the trace ends
in the exit with status 2 and starts with the report. -/
theorem mainTrace_reports_before_exit_witness :
    MainEvent.exitThreshold 2 ∈
      mainTrace (Options.mk false false false false true 50 0)
        (GlobalStats.mk 10 1 10 0 0 100) ∧
    ((∃ pre, mainTrace (Options.mk false false false false true 50 0)
        (GlobalStats.mk 10 1 10 0 0 100) =
        pre ++ [MainEvent.exitThreshold 2]) ∧
      reportEvent (Options.mk false false false false true 50 0) ≠
        MainEvent.exitThreshold 2) :=
  ⟨by decide,
    (mainTrace_reports_before_exit
      (Options.mk false false false false true 50 0)
      (GlobalStats.mk 10 1 10 0 0 100)).2 2 (by decide)⟩
